import Mathlib

/-!
A shallow embedding of the CCodec control plane
(media/libstagefright/CCodec.cpp): the lifecycle state machine, the
dispatcher message handler with its per-command deadlines, the work-done
queue, and the watchdog entry point `initiateReleaseIfStuck`.

Client callbacks, buffer-channel calls, component calls, posted dispatcher
messages and spawned release threads are modelled as an ordered list of
effects returned by each operation next to the updated codec record.
-/

/-- Android status codes (system/core/include/utils/Errors.h). -/
def OK : Int := 0

def UNKNOWN_ERROR : Int := -2147483648

def NO_MEMORY : Int := UNKNOWN_ERROR + 1

def INVALID_OPERATION : Int := UNKNOWN_ERROR + 2

def BAD_VALUE : Int := UNKNOWN_ERROR + 3

/-- media error code ERROR_UNSUPPORTED (media/stagefright/MediaErrors.h). -/
def ERROR_UNSUPPORTED : Int := -1010

/-- Codec2 status code C2_OK; non-OK c2_status_t values are nonzero. -/
def C2_OK : Int := 0

/-- Lifecycle states from CCodec.h / spec section 3. -/
inductive CState where
  | RELEASED
  | ALLOCATING
  | ALLOCATED
  | STARTING
  | RUNNING
  | FLUSHING
  | FLUSHED
  | RESUMING
  | STOPPING
  | RELEASING
deriving DecidableEq, Repr

/-- MediaCodec action codes (only ACTION_CODE_FATAL is used by CCodec.cpp). -/
inductive ActionCode where
  | ACTION_CODE_FATAL
  | ACTION_CODE_TRANSIENT
  | ACTION_CODE_RECOVERABLE
deriving DecidableEq, Repr

/-- A completed C2Work item; its payload is irrelevant to the control plane,
only its identity matters, so it is modelled by a tag. -/
structure C2Work where
  ident : Nat
deriving DecidableEq, Repr

/-- The keys CCodec::configure reads from / writes into an AMessage format:
a property bag restricted to the fields this file touches, each optional. -/
structure MediaFormat where
  mime : Option String := none
  channelCount : Option Int := none
  sampleRate : Option Int := none
  width : Option Int := none
  height : Option Int := none
deriving DecidableEq, Repr

/-- The format AMessage handed to initiateConfigureComponent:
`findString("mime")`, `findInt32("encoder")` and the presence of a
`"native-window"` object. -/
structure FormatMsg where
  mime : Option String := none
  encoder : Option Int := none
  nativeWindow : Bool := false
deriving DecidableEq, Repr

/-- The underlying C2Component, modelled by the observable results of the
calls CCodec makes on it: its interface name and the status each blocking
call returns (0 is C2_OK), plus the work flush_sm hands back. -/
structure Component where
  name : String
  startResult : Int := 0
  stopResult : Int := 0
  flushResult : Int := 0
  flushedWork : List C2Work := []
deriving DecidableEq, Repr

/-- steady_clock timestamps, in milliseconds; TimePoint::max() is `never`. -/
inductive TimePoint where
  | mk (t : Nat)
  | never
deriving DecidableEq, Repr

/-- Comparison `a <= b` on timestamps, `never` being the maximum. -/
def TimePoint.le : TimePoint → TimePoint → Bool
  | _, TimePoint.never => true
  | TimePoint.never, TimePoint.mk _ => false
  | TimePoint.mk x, TimePoint.mk y => x ≤ y

/-- Client callback sink events (MediaCodec::CodecCallback). -/
inductive Event where
  | onError (err : Int) (actionCode : ActionCode)
  | onComponentAllocated (componentName : String)
  | onComponentConfigured (inputFormat outputFormat : MediaFormat)
  | onInputSurfaceCreated (inputFormat outputFormat : Option MediaFormat)
  | onInputSurfaceCreationFailed (err : Int)
  | onInputSurfaceDeclined (err : Int)
  | onStartCompleted
  | onStopCompleted
  | onReleaseCompleted
  | onFlushCompleted
deriving DecidableEq, Repr

/-- Calls CCodec makes into the CCodecBufferChannel. -/
inductive ChannelCall where
  | setComponent (comp : Component)
  | setSurface
  | setGraphicBufferSource
  | start (inputFormat outputFormat : Option MediaFormat)
  | stop
  | flush (flushedWork : List C2Work)
  | onWorkDone (work : C2Work)
deriving DecidableEq, Repr

/-- Calls CCodec makes into the C2Component. -/
inductive CompCall where
  | setListener
  | start
  | stop
  | flushSm
  | release
deriving DecidableEq, Repr

/-- Dispatcher message envelopes (the kWhat enum with their payloads). -/
inductive Msg where
  | kWhatAllocate (componentName : String)
  | kWhatConfigure (format : FormatMsg)
  | kWhatStart
  | kWhatStop
  | kWhatFlush
  | kWhatCreateInputSurface
  | kWhatSetInputSurface
  | kWhatWorkDone
deriving DecidableEq, Repr

/-- Observable effects of a CCodec operation, in program order. -/
inductive Eff where
  | callback (ev : Event)
  | channel (call : ChannelCall)
  | component (call : CompCall)
  | post (msg : Msg)
  | spawnRelease (sendCallback : Bool)
deriving DecidableEq, Repr

/-- The CCodec object: lifecycle state with its component handle (mState),
the stored formats (mFormats), the deadline (mDeadline) and the work-done
queue (mWorkDoneQueue). -/
structure CCodec where
  state : CState
  comp : Option Component
  inputFormat : Option MediaFormat
  outputFormat : Option MediaFormat
  deadline : TimePoint
  workDoneQueue : List C2Work
deriving DecidableEq, Repr

/-- External collaborators of the worker bodies: the platform component
store's createComponent (status plus component on success), and the results
of GraphicBufferSource::initCheck and setGraphicBufferSource used by
createInputSurface. -/
structure Env where
  createComponent : String → Except Int Component
  sourceInitResult : Int
  setGBSResult : Int

/-- AString::startsWithIgnoreCase: an ASCII case-insensitive prefix test
(strncasecmp against the first strlen(p) characters), over the character
sequences of the two strings. -/
def AString.startsWithIgnoreCase (s p : String) : Bool :=
  List.isPrefixOf (p.data.map Char.toLower) (s.data.map Char.toLower)

/-- Modelled from the spec: the case-sensitive test "the supplied mime
starts with audio/" as the claim words it, for comparison with the
case-insensitive test the source uses. -/
def specStartsWith (s p : String) : Bool :=
  List.isPrefixOf p.data s.data

def CCodec.setDeadline (c : CCodec) (newDeadline : TimePoint) : CCodec :=
  { c with deadline := newDeadline }

/-- CCodec::initiateAllocateComponent (CCodec.cpp:163). The componentName
argument models msg->findString("componentName"); on failure the AString
stays default-constructed (""). -/
def CCodec.initiateAllocateComponent (c : CCodec) (componentName : Option String) :
    CCodec × List Eff :=
  if c.state ≠ CState.RELEASED then
    (c, [Eff.callback (Event.onError INVALID_OPERATION ActionCode.ACTION_CODE_FATAL)])
  else
    ({ c with state := CState.ALLOCATING },
     [Eff.post (Msg.kWhatAllocate (componentName.getD ""))])

/-- CCodec::allocate (CCodec.cpp:183). The store returns a component exactly
when createComponent returns C2_OK, hence the Except. -/
def CCodec.allocate (env : Env) (c : CCodec) (componentName : String) :
    CCodec × List Eff :=
  match env.createComponent componentName with
  | Except.error err =>
      ({ c with state := CState.RELEASED },
       [Eff.callback (Event.onError err ActionCode.ACTION_CODE_FATAL)])
  | Except.ok comp =>
      if c.state ≠ CState.ALLOCATING then
        ({ c with state := CState.RELEASED },
         [Eff.component CompCall.setListener,
          Eff.callback (Event.onError UNKNOWN_ERROR ActionCode.ACTION_CODE_FATAL)])
      else
        ({ c with state := CState.ALLOCATED, comp := some comp },
         [Eff.component CompCall.setListener,
          Eff.channel (ChannelCall.setComponent comp),
          Eff.callback (Event.onComponentAllocated comp.name)])

/-- CCodec::initiateConfigureComponent (CCodec.cpp:215). -/
def CCodec.initiateConfigureComponent (c : CCodec) (format : FormatMsg) :
    CCodec × List Eff :=
  if c.state ≠ CState.ALLOCATED then
    (c, [Eff.callback (Event.onError UNKNOWN_ERROR ActionCode.ACTION_CODE_FATAL)])
  else
    (c, [Eff.post (Msg.kWhatConfigure format)])

/-- CCodec::configure (CCodec.cpp:229). When "mime" is missing the inner
lambda returns BAD_VALUE, but `if (status_t err = [=]{...}() != OK)` binds
err to the result of the comparison, so the reported error code is 1. -/
def CCodec.configure (c : CCodec) (msg : FormatMsg) : CCodec × List Eff :=
  match msg.mime with
  | none =>
      (c, [Eff.callback (Event.onError 1 ActionCode.ACTION_CODE_FATAL)])
  | some mime =>
      let encoder : Int := msg.encoder.getD 0
      let surfaceEffs : List Eff :=
        if msg.nativeWindow then [Eff.channel ChannelCall.setSurface] else []
      let audio := AString.startsWithIgnoreCase mime "audio/"
      let rawMime := (if audio then "audio" else "video") ++ "/raw"
      let inOut : MediaFormat × MediaFormat :=
        if encoder ≠ 0 then
          if audio then
            ({ mime := some rawMime, channelCount := some 1, sampleRate := some 44100 },
             { mime := some mime, channelCount := some 1, sampleRate := some 44100 })
          else
            ({ mime := some rawMime },
             { mime := some mime, width := some 1080, height := some 1920 })
        else
          if audio then
            ({ mime := some mime },
             { mime := some rawMime, channelCount := some 2, sampleRate := some 44100 })
          else
            ({ mime := some mime }, { mime := some rawMime })
      ({ c with inputFormat := some inOut.1, outputFormat := some inOut.2 },
       surfaceEffs ++ [Eff.callback (Event.onComponentConfigured inOut.1 inOut.2)])

/-- CCodec::initiateCreateInputSurface (CCodec.cpp:288). -/
def CCodec.initiateCreateInputSurface (c : CCodec) : CCodec × List Eff :=
  (c, [Eff.post Msg.kWhatCreateInputSurface])

/-- CCodec::createInputSurface (CCodec.cpp:292), with
setupInputSurface = mChannel->setGraphicBufferSource inlined. -/
def CCodec.createInputSurface (env : Env) (c : CCodec) : CCodec × List Eff :=
  if env.sourceInitResult ≠ 0 then
    (c, [Eff.callback (Event.onInputSurfaceCreationFailed env.sourceInitResult)])
  else if env.setGBSResult ≠ 0 then
    (c, [Eff.channel ChannelCall.setGraphicBufferSource,
         Eff.callback (Event.onInputSurfaceCreationFailed env.setGBSResult)])
  else
    (c, [Eff.channel ChannelCall.setGraphicBufferSource,
         Eff.callback (Event.onInputSurfaceCreated c.inputFormat c.outputFormat)])

/-- CCodec::initiateSetInputSurface (CCodec.cpp:334). -/
def CCodec.initiateSetInputSurface (c : CCodec) : CCodec × List Eff :=
  (c, [Eff.post Msg.kWhatSetInputSurface])

/-- CCodec::setInputSurface (CCodec.cpp:340): always declines. -/
def CCodec.setInputSurface (c : CCodec) : CCodec × List Eff :=
  (c, [Eff.callback (Event.onInputSurfaceDeclined ERROR_UNSUPPORTED)])

/-- CCodec::initiateStart (CCodec.cpp:347). -/
def CCodec.initiateStart (c : CCodec) : CCodec × List Eff :=
  if c.state ≠ CState.ALLOCATED then
    (c, [Eff.callback (Event.onError UNKNOWN_ERROR ActionCode.ACTION_CODE_FATAL)])
  else
    ({ c with state := CState.STARTING }, [Eff.post Msg.kWhatStart])

/-- CCodec::start (CCodec.cpp:362). In this sequential model nothing runs
between the two state checks, so the second check still sees STARTING; the
component handle is present whenever the state is STARTING. -/
def CCodec.start (c : CCodec) : CCodec × List Eff :=
  if c.state ≠ CState.STARTING then
    (c, [Eff.callback (Event.onError UNKNOWN_ERROR ActionCode.ACTION_CODE_FATAL)])
  else
    match c.comp with
    | none => (c, [])
    | some comp =>
        if comp.startResult ≠ 0 then
          (c, [Eff.component CompCall.start,
               Eff.callback (Event.onError UNKNOWN_ERROR ActionCode.ACTION_CODE_FATAL)])
        else
          ({ c with state := CState.RUNNING },
           [Eff.component CompCall.start,
            Eff.channel (ChannelCall.start c.inputFormat c.outputFormat),
            Eff.callback Event.onStartCompleted])

/-- CCodec::initiateStop (CCodec.cpp:410). -/
def CCodec.initiateStop (c : CCodec) : CCodec × List Eff :=
  if c.state = CState.ALLOCATED ∨ c.state = CState.RELEASED
      ∨ c.state = CState.STOPPING ∨ c.state = CState.RELEASING then
    (c, [Eff.callback Event.onStopCompleted])
  else
    ({ c with state := CState.STOPPING }, [Eff.post Msg.kWhatStop])

/-- CCodec::initiateShutdown (CCodec.cpp:402). -/
def CCodec.initiateRelease (c : CCodec) (sendCallback : Bool) : CCodec × List Eff :=
  if c.state = CState.RELEASED ∨ c.state = CState.RELEASING then
    (c, if sendCallback then [Eff.callback Event.onReleaseCompleted] else [])
  else if c.state = CState.ALLOCATING then
    -- With the altered state allocate() would fail and clean up.
    ({ c with state := CState.RELEASING },
     if sendCallback then [Eff.callback Event.onReleaseCompleted] else [])
  else
    ({ c with state := CState.RELEASING }, [Eff.spawnRelease sendCallback])

/-- CCodec::initiateShutdown (CCodec.cpp:402). -/
def CCodec.initiateShutdown (c : CCodec) (keepComponentAllocated : Bool) :
    CCodec × List Eff :=
  if keepComponentAllocated then CCodec.initiateStop c
  else CCodec.initiateRelease c true

/-- CCodec::stop (CCodec.cpp:429). In this sequential model the final check
finds the state still STOPPING; the handle is present in state STOPPING. -/
def CCodec.stop (c : CCodec) : CCodec × List Eff :=
  if c.state = CState.RELEASING then
    (c, [Eff.callback Event.onStopCompleted])
  else if c.state ≠ CState.STOPPING then
    (c, [Eff.callback (Event.onError UNKNOWN_ERROR ActionCode.ACTION_CODE_FATAL)])
  else
    match c.comp with
    | none => (c, [])
    | some comp =>
        let errEffs : List Eff :=
          if comp.stopResult ≠ 0 then
            [Eff.callback (Event.onError UNKNOWN_ERROR ActionCode.ACTION_CODE_FATAL)]
          else []
        let c1 := if c.state = CState.STOPPING then { c with state := CState.ALLOCATED } else c
        (c1,
         [Eff.channel ChannelCall.stop, Eff.component CompCall.stop]
           ++ errEffs ++ [Eff.callback Event.onStopCompleted])

/-- CCodec::release (CCodec.cpp:491), the worker run on the detached thread;
the handle is present in every state this worker reaches past the check. -/
def CCodec.release (c : CCodec) (sendCallback : Bool) : CCodec × List Eff :=
  if c.state = CState.RELEASED then
    (c, if sendCallback then [Eff.callback Event.onReleaseCompleted] else [])
  else
    match c.comp with
    | none => (c, [])
    | some _ =>
        ({ c with state := CState.RELEASED, comp := none },
         [Eff.channel ChannelCall.stop, Eff.component CompCall.release]
           ++ if sendCallback then [Eff.callback Event.onReleaseCompleted] else [])

/-- CCodec::signalFlush (CCodec.cpp:522). -/
def CCodec.signalFlush (c : CCodec) : CCodec × List Eff :=
  if c.state ≠ CState.RUNNING then
    (c, [Eff.callback (Event.onError UNKNOWN_ERROR ActionCode.ACTION_CODE_FATAL)])
  else
    ({ c with state := CState.FLUSHING }, [Eff.post Msg.kWhatFlush])

/-- CCodec::flush (CCodec.cpp:535); the handle is present in state FLUSHING. -/
def CCodec.flush (c : CCodec) : CCodec × List Eff :=
  if c.state ≠ CState.FLUSHING then
    (c, [Eff.callback (Event.onError UNKNOWN_ERROR ActionCode.ACTION_CODE_FATAL)])
  else
    match c.comp with
    | none => (c, [])
    | some comp =>
        let errEffs : List Eff :=
          if comp.flushResult ≠ 0 then
            [Eff.callback (Event.onError UNKNOWN_ERROR ActionCode.ACTION_CODE_FATAL)]
          else []
        ({ c with state := CState.FLUSHED },
         [Eff.channel ChannelCall.stop, Eff.component CompCall.flushSm]
           ++ errEffs
           ++ [Eff.channel (ChannelCall.flush comp.flushedWork),
               Eff.callback Event.onFlushCompleted])

/-- CCodec::signalResume (CCodec.cpp:566). In this sequential model the
second check still sees RESUMING, so the two transitions collapse to
FLUSHED -> RUNNING around the channel start(nullptr, nullptr) call. -/
def CCodec.signalResume (c : CCodec) : CCodec × List Eff :=
  if c.state ≠ CState.FLUSHED then
    (c, [Eff.callback (Event.onError UNKNOWN_ERROR ActionCode.ACTION_CODE_FATAL)])
  else
    ({ c with state := CState.RUNNING }, [Eff.channel (ChannelCall.start none none)])

/-- CCodec::onWorkDone (CCodec.cpp:604), the listener-side enqueue. -/
def CCodec.onWorkDone (c : CCodec) (workItems : List C2Work) : CCodec × List Eff :=
  ({ c with workDoneQueue := c.workDoneQueue ++ workItems },
   [Eff.post Msg.kWhatWorkDone])

/-- The body of the kWhatWorkDone case of CCodec::onMessageReceived
(CCodec.cpp:664): pop at most one item, re-post while items remain, hand
the popped item to the buffer channel. -/
def CCodec.handleWorkDone (c : CCodec) : CCodec × List Eff :=
  match c.workDoneQueue with
  | [] => (c, [])
  | work :: rest =>
      ({ c with workDoneQueue := rest },
       (if rest.isEmpty then [] else [Eff.post Msg.kWhatWorkDone])
         ++ [Eff.channel (ChannelCall.onWorkDone work)])

/-- The setDeadline call at the head of each case of
CCodec::onMessageReceived (CCodec.cpp:612); kWhatWorkDone has none. -/
def CCodec.entryCodec (now : Nat) (c : CCodec) : Msg → CCodec
  | Msg.kWhatAllocate _ => CCodec.setDeadline c (TimePoint.mk (now + 150))
  | Msg.kWhatConfigure _ => CCodec.setDeadline c (TimePoint.mk (now + 50))
  | Msg.kWhatStart => CCodec.setDeadline c (TimePoint.mk (now + 550))
  | Msg.kWhatStop => CCodec.setDeadline c (TimePoint.mk (now + 550))
  | Msg.kWhatFlush => CCodec.setDeadline c (TimePoint.mk (now + 50))
  | Msg.kWhatCreateInputSurface => CCodec.setDeadline c (TimePoint.mk (now + 100))
  | Msg.kWhatSetInputSurface => CCodec.setDeadline c (TimePoint.mk (now + 100))
  | Msg.kWhatWorkDone => c

/-- CCodec::onMessageReceived (CCodec.cpp:612): stamp the per-command
deadline, run the worker, and reset the deadline to never on exit. -/
def CCodec.onMessageReceived (env : Env) (now : Nat) (c : CCodec) (msg : Msg) :
    CCodec × List Eff :=
  let c0 := CCodec.entryCodec now c msg
  let r :=
    match msg with
    | Msg.kWhatAllocate componentName => CCodec.allocate env c0 componentName
    | Msg.kWhatConfigure format => CCodec.configure c0 format
    | Msg.kWhatStart => CCodec.start c0
    | Msg.kWhatStop => CCodec.stop c0
    | Msg.kWhatFlush => CCodec.flush c0
    | Msg.kWhatCreateInputSurface => CCodec.createInputSurface env c0
    | Msg.kWhatSetInputSurface => CCodec.setInputSurface c0
    | Msg.kWhatWorkDone => CCodec.handleWorkDone c0
  (CCodec.setDeadline r.1 TimePoint.never, r.2)

/-- CCodec::initiateReleaseIfStuck (CCodec.cpp:693): a no-op while the
deadline has not elapsed (deadline >= now), otherwise onError followed by
a forced release. -/
def CCodec.initiateReleaseIfStuck (c : CCodec) (now : Nat) : CCodec × List Eff :=
  if TimePoint.le (TimePoint.mk now) c.deadline then
    (c, [])
  else
    let r := CCodec.initiateRelease c true
    (r.1, Eff.callback (Event.onError UNKNOWN_ERROR ActionCode.ACTION_CODE_FATAL) :: r.2)

/-- The work items an effect list hands to the buffer channel, in order. -/
def deliveredOf (effs : List Eff) : List C2Work :=
  effs.filterMap fun e =>
    match e with
    | Eff.channel (ChannelCall.onWorkDone w) => some w
    | _ => none

/-- Interleavings of the two operations that touch the work-done queue:
a listener enqueue (CCodec::onWorkDone) or a kWhatWorkDone delivery. -/
inductive WDEvent where
  | enqueue (items : List C2Work)
  | deliver
deriving DecidableEq, Repr

/-- Run a sequence of work-done events against the real operations,
collecting the work items handed to the buffer channel in order. -/
def wdRun (env : Env) (now : Nat) : List WDEvent → CCodec → CCodec × List C2Work
  | [], c => (c, [])
  | WDEvent.enqueue items :: rest, c =>
      wdRun env now rest (CCodec.onWorkDone c items).1
  | WDEvent.deliver :: rest, c =>
      let r := CCodec.onMessageReceived env now c Msg.kWhatWorkDone
      let tail := wdRun env now rest r.1
      (tail.1, deliveredOf r.2 ++ tail.2)

/-- Concatenation, in order, of everything a work-done event list enqueues. -/
def wdEnqueued : List WDEvent → List C2Work
  | [] => []
  | WDEvent.enqueue items :: rest => items ++ wdEnqueued rest
  | WDEvent.deliver :: rest => wdEnqueued rest

/-- A freshly constructed controller: initial state RELEASED, no component,
null formats, deadline initially never between messages, empty queue. -/
def cReleased : CCodec :=
  { state := CState.RELEASED, comp := none, inputFormat := none,
    outputFormat := none, deadline := TimePoint.never, workDoneQueue := [] }

/-- A well-behaved concrete component for witnesses. -/
def comp0 : Component := { name := "c2.example.aac.dec" }

/-- A concrete component whose stop() fails. -/
def compBadStop : Component := { name := "c2.example.bad", stopResult := -2 }

/-- A concrete environment whose store succeeds. -/
def env0 : Env :=
  { createComponent := fun _ => Except.ok comp0,
    sourceInitResult := 0, setGBSResult := 0 }

/-- A concrete environment whose store fails with C2_NOT_FOUND (-2). -/
def envFail : Env :=
  { createComponent := fun _ => Except.error (-2),
    sourceInitResult := 0, setGBSResult := 0 }

def cAllocating : CCodec := { cReleased with state := CState.ALLOCATING }

def cAllocated : CCodec :=
  { cReleased with state := CState.ALLOCATED, comp := some comp0 }

def cRunning : CCodec :=
  { cReleased with state := CState.RUNNING, comp := some comp0 }

def cFlushing : CCodec :=
  { cReleased with state := CState.FLUSHING, comp := some comp0 }

def cStarting : CCodec :=
  { cReleased with state := CState.STARTING, comp := some comp0 }

def fmt0 : FormatMsg := { mime := some "audio/mp4a-latm" }

/-- A concrete video encoder format message (scenario A2). -/
def fmtEnc : FormatMsg := { mime := some "video/avc", encoder := some 1 }

/-- A concrete component whose start() fails. -/
def compBadStart : Component := { name := "c2.example.bad", startResult := -2 }

/-- A concrete component whose flush_sm() fails. -/
def compBadFlush : Component := { name := "c2.example.bad", flushResult := -2 }

def cStopping : CCodec :=
  { cReleased with state := CState.STOPPING, comp := some compBadStop }

def cStartingBad : CCodec :=
  { cReleased with state := CState.STARTING, comp := some compBadStart }

def cFlushingBad : CCodec :=
  { cReleased with state := CState.FLUSHING, comp := some compBadFlush }

def cReleasing : CCodec := { cReleased with state := CState.RELEASING }

def wk0 : C2Work := { ident := 0 }

def wk1 : C2Work := { ident := 1 }

def cQueued : CCodec := { cReleased with workDoneQueue := [wk0, wk1] }

/-- C2: every lifecycle command whose state precondition fails
(initiateAllocateComponent outside RELEASED, initiateConfigureComponent and
initiateStart outside ALLOCATED, signalFlush outside RUNNING, signalResume
outside FLUSHED) immediately emits exactly one
onError(INVALID_OPERATION or UNKNOWN_ERROR, ACTION_CODE_FATAL), posts no
message, and leaves the codec (in particular its lifecycle state)
unchanged. -/
theorem C2_precondition_violations (c : CCodec) (nameMsg : Option String)
    (fmt : FormatMsg) :
    (c.state ≠ CState.RELEASED →
      CCodec.initiateAllocateComponent c nameMsg
        = (c, [Eff.callback (Event.onError INVALID_OPERATION ActionCode.ACTION_CODE_FATAL)]))
    ∧ (c.state ≠ CState.ALLOCATED →
      CCodec.initiateConfigureComponent c fmt
        = (c, [Eff.callback (Event.onError UNKNOWN_ERROR ActionCode.ACTION_CODE_FATAL)]))
    ∧ (c.state ≠ CState.ALLOCATED →
      CCodec.initiateStart c
        = (c, [Eff.callback (Event.onError UNKNOWN_ERROR ActionCode.ACTION_CODE_FATAL)]))
    ∧ (c.state ≠ CState.RUNNING →
      CCodec.signalFlush c
        = (c, [Eff.callback (Event.onError UNKNOWN_ERROR ActionCode.ACTION_CODE_FATAL)]))
    ∧ (c.state ≠ CState.FLUSHED →
      CCodec.signalResume c
        = (c, [Eff.callback (Event.onError UNKNOWN_ERROR ActionCode.ACTION_CODE_FATAL)])) := by
  refine ⟨?_, ?_, ?_, ?_, ?_⟩ <;> intro h
  · simp [CCodec.initiateAllocateComponent, h]
  · simp [CCodec.initiateConfigureComponent, h]
  · simp [CCodec.initiateStart, h]
  · simp [CCodec.signalFlush, h]
  · simp [CCodec.signalResume, h]

/-- C2 witness: concrete precondition violations, from states RUNNING and
FLUSHING. -/
theorem C2_precondition_violations_witness :
    (CCodec.initiateAllocateComponent cRunning (some "c2.x")
      = (cRunning, [Eff.callback (Event.onError INVALID_OPERATION ActionCode.ACTION_CODE_FATAL)]))
    ∧ (CCodec.initiateConfigureComponent cRunning fmt0
      = (cRunning, [Eff.callback (Event.onError UNKNOWN_ERROR ActionCode.ACTION_CODE_FATAL)]))
    ∧ (CCodec.initiateStart cRunning
      = (cRunning, [Eff.callback (Event.onError UNKNOWN_ERROR ActionCode.ACTION_CODE_FATAL)]))
    ∧ (CCodec.signalFlush cFlushing
      = (cFlushing, [Eff.callback (Event.onError UNKNOWN_ERROR ActionCode.ACTION_CODE_FATAL)]))
    ∧ (CCodec.signalResume cRunning
      = (cRunning, [Eff.callback (Event.onError UNKNOWN_ERROR ActionCode.ACTION_CODE_FATAL)])) :=
  ⟨(C2_precondition_violations cRunning (some "c2.x") fmt0).1 (by decide),
   (C2_precondition_violations cRunning (some "c2.x") fmt0).2.1 (by decide),
   (C2_precondition_violations cRunning (some "c2.x") fmt0).2.2.1 (by decide),
   (C2_precondition_violations cFlushing (some "c2.x") fmt0).2.2.2.1 (by decide),
   (C2_precondition_violations cRunning (some "c2.x") fmt0).2.2.2.2 (by decide)⟩

/-- C6: initiateStop from ALLOCATED, RELEASED, STOPPING or RELEASING emits
exactly one onStopCompleted, posts nothing and leaves the codec unchanged;
initiateRelease from RELEASED or RELEASING emits exactly one
onReleaseCompleted when sendCallback is true (nothing otherwise), spawns no
release thread and leaves the codec unchanged; hence both are idempotent on
the lifecycle state from their terminal states. -/
theorem C6_idempotent_stop_release (c : CCodec) (sc : Bool) :
    ((c.state = CState.ALLOCATED ∨ c.state = CState.RELEASED
        ∨ c.state = CState.STOPPING ∨ c.state = CState.RELEASING) →
      CCodec.initiateStop c = (c, [Eff.callback Event.onStopCompleted]))
    ∧ ((c.state = CState.RELEASED ∨ c.state = CState.RELEASING) →
      CCodec.initiateRelease c sc
        = (c, if sc then [Eff.callback Event.onReleaseCompleted] else [])) := by
  constructor
  · intro h
    unfold CCodec.initiateStop
    rw [if_pos h]
  · intro h
    unfold CCodec.initiateRelease
    rw [if_pos h]

/-- C6 witness: repeating stop and release from state RELEASED. -/
theorem C6_idempotent_stop_release_witness :
    (CCodec.initiateStop cReleased = (cReleased, [Eff.callback Event.onStopCompleted]))
    ∧ (CCodec.initiateRelease cReleased true
      = (cReleased, if true then [Eff.callback Event.onReleaseCompleted] else [])) :=
  ⟨(C6_idempotent_stop_release cReleased true).1 (by decide),
   (C6_idempotent_stop_release cReleased true).2 (by decide)⟩

/-- C9: initiateReleaseIfStuck is a no-op when the deadline is at or after
the current time, and otherwise emits onError(UNKNOWN_ERROR,
ACTION_CODE_FATAL) and then initiates a (forced) release. -/
theorem C9_release_if_stuck (c : CCodec) (now : Nat) :
    (TimePoint.le (TimePoint.mk now) c.deadline = true →
      CCodec.initiateReleaseIfStuck c now = (c, []))
    ∧ (TimePoint.le (TimePoint.mk now) c.deadline = false →
      CCodec.initiateReleaseIfStuck c now
        = ((CCodec.initiateRelease c true).1,
           Eff.callback (Event.onError UNKNOWN_ERROR ActionCode.ACTION_CODE_FATAL)
             :: (CCodec.initiateRelease c true).2)) := by
  constructor <;> intro h <;> simp [CCodec.initiateReleaseIfStuck, h]

/-- C9 witness: a live deadline (never) is a no-op; an elapsed deadline
(3 < 5) from RUNNING forces the release path. -/
theorem C9_release_if_stuck_witness :
    (CCodec.initiateReleaseIfStuck cReleased 5 = (cReleased, []))
    ∧ (CCodec.initiateReleaseIfStuck { cRunning with deadline := TimePoint.mk 3 } 5
      = ((CCodec.initiateRelease { cRunning with deadline := TimePoint.mk 3 } true).1,
         Eff.callback (Event.onError UNKNOWN_ERROR ActionCode.ACTION_CODE_FATAL)
           :: (CCodec.initiateRelease { cRunning with deadline := TimePoint.mk 3 } true).2)) :=
  ⟨(C9_release_if_stuck cReleased 5).1 (by decide),
   (C9_release_if_stuck { cRunning with deadline := TimePoint.mk 3 } 5).2 (by decide)⟩

/-- C4: initiateRelease in state ALLOCATING sets the state to RELEASING and
spawns no release worker (emitting onReleaseCompleted at once when
sendCallback is true); the in-flight allocate worker, whose create
succeeded but which then finds the state no longer ALLOCATING, rewinds the
state to RELEASED without installing the component handle, without any
buffer-channel attach, and without emitting onComponentAllocated. -/
theorem C4_release_during_allocation (c c2 : CCodec) (sc : Bool) (env : Env)
    (name : String) (cp : Component)
    (h : c.state = CState.ALLOCATING)
    (h2 : c2.state ≠ CState.ALLOCATING)
    (hcr : env.createComponent name = Except.ok cp) :
    CCodec.initiateRelease c sc
      = ({ c with state := CState.RELEASING },
         if sc then [Eff.callback Event.onReleaseCompleted] else [])
    ∧ CCodec.allocate env c2 name
      = ({ c2 with state := CState.RELEASED },
         [Eff.component CompCall.setListener,
          Eff.callback (Event.onError UNKNOWN_ERROR ActionCode.ACTION_CODE_FATAL)]) := by
  constructor
  · unfold CCodec.initiateRelease
    rw [if_neg (by simp [h]), if_pos h]
  · unfold CCodec.allocate
    rw [hcr]
    simp [h2]

/-- C4 witness: release issued while allocating, then the allocate worker
running with the state already moved to RELEASING. -/
theorem C4_release_during_allocation_witness :
    (CCodec.initiateRelease cAllocating true
      = ({ cAllocating with state := CState.RELEASING },
         if true then [Eff.callback Event.onReleaseCompleted] else []))
    ∧ (CCodec.allocate env0 cReleasing "c2.example.aac.dec"
      = ({ cReleasing with state := CState.RELEASED },
         [Eff.component CompCall.setListener,
          Eff.callback (Event.onError UNKNOWN_ERROR ActionCode.ACTION_CODE_FATAL)])) :=
  C4_release_during_allocation cAllocating cReleasing true env0
    "c2.example.aac.dec" comp0 (by decide) (by decide) rfl

/-- C5: the stop worker run in state STOPPING stops the buffer channel
first and calls Component.stop() second; the state becomes ALLOCATED (in
particular on success of Component.stop()); and onStopCompleted is emitted
last, unconditionally, preceded on a Component.stop() failure by
onError(UNKNOWN_ERROR, ACTION_CODE_FATAL). -/
theorem C5_stop_worker (c : CCodec) (cp : Component)
    (h : c.state = CState.STOPPING) (hc : c.comp = some cp) :
    CCodec.stop c
      = ({ c with state := CState.ALLOCATED },
         [Eff.channel ChannelCall.stop, Eff.component CompCall.stop]
           ++ (if cp.stopResult ≠ 0
               then [Eff.callback (Event.onError UNKNOWN_ERROR ActionCode.ACTION_CODE_FATAL)]
               else [])
           ++ [Eff.callback Event.onStopCompleted]) := by
  unfold CCodec.stop
  rw [if_neg (by simp [h]), if_neg (by simp [h]), hc]
  simp [h]

/-- C5 witness: a stop worker whose component stop() fails still reports
the error and then completes, with the state ALLOCATED. -/
theorem C5_stop_worker_witness :
    CCodec.stop cStopping
      = ({ cStopping with state := CState.ALLOCATED },
         [Eff.channel ChannelCall.stop, Eff.component CompCall.stop]
           ++ (if compBadStop.stopResult ≠ 0
               then [Eff.callback (Event.onError UNKNOWN_ERROR ActionCode.ACTION_CODE_FATAL)]
               else [])
           ++ [Eff.callback Event.onStopCompleted]) :=
  C5_stop_worker cStopping compBadStop (by decide) (by decide)

/-- C3 counterexample: a ComponentStore create failure with status -2
(C2_NOT_FOUND) during the allocate worker is surfaced as onError(-2,
ACTION_CODE_FATAL) - the raw component status - and no
onError(UNKNOWN_ERROR, ACTION_CODE_FATAL) is emitted, contrary to the
claim. -/
theorem C3_backend_error_counterexample :
    (CCodec.allocate envFail cAllocating "c2.absent").2
      = [Eff.callback (Event.onError (-2) ActionCode.ACTION_CODE_FATAL)]
    ∧ ((-2 : Int) ≠ UNKNOWN_ERROR)
    ∧ Eff.callback (Event.onError UNKNOWN_ERROR ActionCode.ACTION_CODE_FATAL)
        ∉ (CCodec.allocate envFail cAllocating "c2.absent").2 :=
  ⟨rfl, by decide, by decide⟩

/-- C3 (amended): when Component.start(), Component.stop() or
Component.flush_sm() returns a non-OK status the controller surfaces
onError(UNKNOWN_ERROR, ACTION_CODE_FATAL); when ComponentStore create fails
during the allocate worker the controller surfaces onError with the raw
component status code and ACTION_CODE_FATAL. -/
theorem C3_backend_errors (env : Env) (c : CCodec) (cp : Component)
    (name : String) (e : Int) :
    (env.createComponent name = Except.error e →
      CCodec.allocate env c name
        = ({ c with state := CState.RELEASED },
           [Eff.callback (Event.onError e ActionCode.ACTION_CODE_FATAL)]))
    ∧ (c.state = CState.STARTING → c.comp = some cp → cp.startResult ≠ 0 →
      CCodec.start c
        = (c, [Eff.component CompCall.start,
               Eff.callback (Event.onError UNKNOWN_ERROR ActionCode.ACTION_CODE_FATAL)]))
    ∧ (c.state = CState.STOPPING → c.comp = some cp → cp.stopResult ≠ 0 →
      Eff.callback (Event.onError UNKNOWN_ERROR ActionCode.ACTION_CODE_FATAL)
        ∈ (CCodec.stop c).2)
    ∧ (c.state = CState.FLUSHING → c.comp = some cp → cp.flushResult ≠ 0 →
      Eff.callback (Event.onError UNKNOWN_ERROR ActionCode.ACTION_CODE_FATAL)
        ∈ (CCodec.flush c).2) := by
  refine ⟨?_, ?_, ?_, ?_⟩
  · intro h
    unfold CCodec.allocate
    rw [h]
  · intro h hc hr
    unfold CCodec.start
    rw [if_neg (by simp [h]), hc]
    simp [hr]
  · intro h hc hr
    unfold CCodec.stop
    rw [if_neg (by simp [h]), if_neg (by simp [h]), hc]
    simp [hr]
  · intro h hc hr
    unfold CCodec.flush
    rw [if_neg (by simp [h]), hc]
    simp [hr]

/-- C3 witness: a failing create, and failing component start, stop and
flush calls, each surfaced as the amended claim states. -/
theorem C3_backend_errors_witness :
    (CCodec.allocate envFail cAllocating "c2.absent"
      = ({ cAllocating with state := CState.RELEASED },
         [Eff.callback (Event.onError (-2) ActionCode.ACTION_CODE_FATAL)]))
    ∧ (CCodec.start cStartingBad
      = (cStartingBad,
         [Eff.component CompCall.start,
          Eff.callback (Event.onError UNKNOWN_ERROR ActionCode.ACTION_CODE_FATAL)]))
    ∧ (Eff.callback (Event.onError UNKNOWN_ERROR ActionCode.ACTION_CODE_FATAL)
        ∈ (CCodec.stop cStopping).2)
    ∧ (Eff.callback (Event.onError UNKNOWN_ERROR ActionCode.ACTION_CODE_FATAL)
        ∈ (CCodec.flush cFlushingBad).2) :=
  ⟨(C3_backend_errors envFail cAllocating comp0 "c2.absent" (-2)).1 rfl,
   (C3_backend_errors env0 cStartingBad compBadStart "x" (-2)).2.1
     (by decide) (by decide) (by decide),
   (C3_backend_errors env0 cStopping compBadStop "x" (-2)).2.2.1
     (by decide) (by decide) (by decide),
   (C3_backend_errors env0 cFlushingBad compBadFlush "x" (-2)).2.2.2
     (by decide) (by decide) (by decide)⟩

/-- C1 counterexample: for the decoder message with mime "AUDIO/mp4a-latm"
the supplied mime does not start with "audio/" (taken literally, as the
claim words it), so the claim requires output mime "video/raw"; the code
tests the prefix ignoring case and synthesizes "audio/raw" with the audio
decoder defaults. -/
theorem C1_configure_counterexample :
    specStartsWith "AUDIO/mp4a-latm" "audio/" = false
    ∧ ((CCodec.configure cReleased { mime := some "AUDIO/mp4a-latm" }).1.outputFormat.bind
        MediaFormat.mime) = some "audio/raw"
    ∧ ¬ (((CCodec.configure cReleased { mime := some "AUDIO/mp4a-latm" }).1.outputFormat.bind
        MediaFormat.mime) = some "video/raw") :=
  ⟨by decide, by decide, by decide⟩

/-- C1 (amended): for every configure invocation whose format message has a
mime string, with the kind test done ignoring ASCII case as the code does:
a decoder (encoder flag absent or 0) gets input mime = supplied mime,
output mime = "kind/raw", and audio decoder output channel-count 2 and
sample-rate 44100; an encoder (flag nonzero) gets output mime = supplied,
input mime = "kind/raw", audio encoder input and output channel-count 1
and sample-rate 44100, video encoder output width 1080 and height 1920;
the two synthesized formats are stored in the controller's Formats and
passed to onComponentConfigured. -/
theorem C1_configure_format_synthesis (c : CCodec) (msg : FormatMsg) (m : String)
    (hm : msg.mime = some m) :
    ∃ inF outF : MediaFormat,
      (CCodec.configure c msg).1.inputFormat = some inF
      ∧ (CCodec.configure c msg).1.outputFormat = some outF
      ∧ Eff.callback (Event.onComponentConfigured inF outF) ∈ (CCodec.configure c msg).2
      ∧ ((msg.encoder = none ∨ msg.encoder = some 0) →
          inF.mime = some m
          ∧ outF.mime = some ((if AString.startsWithIgnoreCase m "audio/" then "audio" else "video") ++ "/raw")
          ∧ (AString.startsWithIgnoreCase m "audio/" = true →
              outF.channelCount = some 2 ∧ outF.sampleRate = some 44100))
      ∧ (∀ e : Int, msg.encoder = some e → e ≠ 0 →
          outF.mime = some m
          ∧ inF.mime = some ((if AString.startsWithIgnoreCase m "audio/" then "audio" else "video") ++ "/raw")
          ∧ (AString.startsWithIgnoreCase m "audio/" = true →
              inF.channelCount = some 1 ∧ inF.sampleRate = some 44100
              ∧ outF.channelCount = some 1 ∧ outF.sampleRate = some 44100)
          ∧ (AString.startsWithIgnoreCase m "audio/" = false →
              outF.width = some 1080 ∧ outF.height = some 1920)) := by
  rcases msg with ⟨mm, me, mw⟩
  have hmm : mm = some m := hm
  subst hmm
  rcases me with _ | e
  · cases haudio : AString.startsWithIgnoreCase m "audio/"
    · refine ⟨{ mime := some m }, { mime := some "video/raw" }, ?_, ?_, ?_, ?_, ?_⟩ <;>
        simp [CCodec.configure, haudio]
    · refine ⟨{ mime := some m },
        { mime := some "audio/raw", channelCount := some 2, sampleRate := some 44100 },
        ?_, ?_, ?_, ?_, ?_⟩ <;> simp [CCodec.configure, haudio]
  · by_cases he : e = 0
    · subst he
      cases haudio : AString.startsWithIgnoreCase m "audio/"
      · refine ⟨{ mime := some m }, { mime := some "video/raw" }, ?_, ?_, ?_, ?_, ?_⟩ <;>
          simp [CCodec.configure, haudio]
      · refine ⟨{ mime := some m },
          { mime := some "audio/raw", channelCount := some 2, sampleRate := some 44100 },
          ?_, ?_, ?_, ?_, ?_⟩ <;> simp [CCodec.configure, haudio]
    · cases haudio : AString.startsWithIgnoreCase m "audio/"
      · refine ⟨{ mime := some "video/raw" },
          { mime := some m, width := some 1080, height := some 1920 },
          ?_, ?_, ?_, ?_, ?_⟩ <;> simp [CCodec.configure, haudio, he]
      · refine ⟨{ mime := some "audio/raw", channelCount := some 1, sampleRate := some 44100 },
          { mime := some m, channelCount := some 1, sampleRate := some 44100 },
          ?_, ?_, ?_, ?_, ?_⟩ <;> simp [CCodec.configure, haudio, he]

/-- C1 witness: the audio decoder message of scenario A1, instantiating the
amended claim. -/
theorem C1_configure_format_synthesis_witness :
    fmt0.mime = some "audio/mp4a-latm"
    ∧ ∃ inF outF : MediaFormat,
        (CCodec.configure cAllocated fmt0).1.inputFormat = some inF
        ∧ (CCodec.configure cAllocated fmt0).1.outputFormat = some outF
        ∧ Eff.callback (Event.onComponentConfigured inF outF) ∈ (CCodec.configure cAllocated fmt0).2
        ∧ ((fmt0.encoder = none ∨ fmt0.encoder = some 0) →
            inF.mime = some "audio/mp4a-latm"
            ∧ outF.mime = some ((if AString.startsWithIgnoreCase "audio/mp4a-latm" "audio/"
                then "audio" else "video") ++ "/raw")
            ∧ (AString.startsWithIgnoreCase "audio/mp4a-latm" "audio/" = true →
                outF.channelCount = some 2 ∧ outF.sampleRate = some 44100))
        ∧ (∀ e : Int, fmt0.encoder = some e → e ≠ 0 →
            outF.mime = some "audio/mp4a-latm"
            ∧ inF.mime = some ((if AString.startsWithIgnoreCase "audio/mp4a-latm" "audio/"
                then "audio" else "video") ++ "/raw")
            ∧ (AString.startsWithIgnoreCase "audio/mp4a-latm" "audio/" = true →
                inF.channelCount = some 1 ∧ inF.sampleRate = some 44100
                ∧ outF.channelCount = some 1 ∧ outF.sampleRate = some 44100)
            ∧ (AString.startsWithIgnoreCase "audio/mp4a-latm" "audio/" = false →
                outF.width = some 1080 ∧ outF.height = some 1920)) :=
  ⟨rfl, C1_configure_format_synthesis cAllocated fmt0 "audio/mp4a-latm" rfl⟩

/-- C10: the configure worker neither reads nor writes the lifecycle state
or the component handle: state, handle, deadline and queue are left exactly
as they were, its effects and synthesized formats depend only on the
message contents, and with a mime key present it overwrites the stored
formats and emits onComponentConfigured whatever the lifecycle state. -/
theorem C10_configure_frame (c c2 : CCodec) (msg : FormatMsg) :
    (CCodec.configure c msg).1.state = c.state
    ∧ (CCodec.configure c msg).1.comp = c.comp
    ∧ (CCodec.configure c msg).1.deadline = c.deadline
    ∧ (CCodec.configure c msg).1.workDoneQueue = c.workDoneQueue
    ∧ (CCodec.configure c msg).2 = (CCodec.configure c2 msg).2
    ∧ (∀ m, msg.mime = some m →
        (CCodec.configure c msg).1.inputFormat = (CCodec.configure c2 msg).1.inputFormat
        ∧ (CCodec.configure c msg).1.outputFormat = (CCodec.configure c2 msg).1.outputFormat
        ∧ ∃ inF outF : MediaFormat,
            (CCodec.configure c msg).1.inputFormat = some inF
            ∧ (CCodec.configure c msg).1.outputFormat = some outF
            ∧ Eff.callback (Event.onComponentConfigured inF outF)
                ∈ (CCodec.configure c msg).2) := by
  rcases msg with ⟨mm, me, mw⟩
  rcases mm with _ | m
  · refine ⟨rfl, rfl, rfl, rfl, rfl, ?_⟩
    intro m2 hm2
    exact absurd hm2 (by simp)
  · refine ⟨rfl, rfl, rfl, rfl, rfl, ?_⟩
    intro m2 _
    exact ⟨rfl, rfl, _, _, rfl, rfl, by simp [CCodec.configure]⟩

/-- C10 witness: a configure running after the state moved to RELEASING
still leaves state and handle alone, computes the same formats as from any
other codec, overwrites the stored formats and emits
onComponentConfigured. -/
theorem C10_configure_frame_witness :
    (CCodec.configure cReleasing fmt0).1.state = cReleasing.state
    ∧ (CCodec.configure cReleasing fmt0).1.comp = cReleasing.comp
    ∧ (CCodec.configure cReleasing fmt0).2 = (CCodec.configure cReleased fmt0).2
    ∧ (CCodec.configure cReleasing fmt0).1.inputFormat
        = (CCodec.configure cReleased fmt0).1.inputFormat
    ∧ ∃ inF outF : MediaFormat,
        (CCodec.configure cReleasing fmt0).1.inputFormat = some inF
        ∧ (CCodec.configure cReleasing fmt0).1.outputFormat = some outF
        ∧ Eff.callback (Event.onComponentConfigured inF outF)
            ∈ (CCodec.configure cReleasing fmt0).2 :=
  ⟨(C10_configure_frame cReleasing cReleased fmt0).1,
   (C10_configure_frame cReleasing cReleased fmt0).2.1,
   (C10_configure_frame cReleasing cReleased fmt0).2.2.2.2.1,
   ((C10_configure_frame cReleasing cReleased fmt0).2.2.2.2.2 "audio/mp4a-latm" rfl).1,
   ((C10_configure_frame cReleasing cReleased fmt0).2.2.2.2.2 "audio/mp4a-latm" rfl).2.2⟩

/-- One kWhatWorkDone delivery consumes the queue head into the channel:
the delivered items followed by the remaining queue are the old queue. -/
theorem workdone_step_invariant (env : Env) (now : Nat) (c : CCodec) :
    deliveredOf (CCodec.onMessageReceived env now c Msg.kWhatWorkDone).2
      ++ (CCodec.onMessageReceived env now c Msg.kWhatWorkDone).1.workDoneQueue
    = c.workDoneQueue := by
  rcases hq : c.workDoneQueue with _ | ⟨w, rest⟩
  · simp [CCodec.onMessageReceived, CCodec.entryCodec, CCodec.handleWorkDone,
      CCodec.setDeadline, deliveredOf, hq]
  · rcases rest with _ | ⟨w2, rest2⟩ <;>
      simp [CCodec.onMessageReceived, CCodec.entryCodec, CCodec.handleWorkDone,
        CCodec.setDeadline, deliveredOf, hq]

/-- Queue refinement for any interleaving of listener enqueues and
kWhatWorkDone deliveries: delivered items plus the remaining queue equal
the initial queue plus everything enqueued, in order. -/
theorem wdRun_fifo (env : Env) (now : Nat) :
    ∀ (evs : List WDEvent) (c : CCodec),
      (wdRun env now evs c).2 ++ (wdRun env now evs c).1.workDoneQueue
        = c.workDoneQueue ++ wdEnqueued evs := by
  intro evs
  induction evs with
  | nil => intro c; simp [wdRun, wdEnqueued]
  | cons ev rest ih =>
    intro c
    cases ev with
    | enqueue items =>
      simp only [wdRun, wdEnqueued]
      rw [ih]
      simp [CCodec.onWorkDone]
    | deliver =>
      have h := workdone_step_invariant env now c
      simp only [wdRun, wdEnqueued]
      rw [List.append_assoc, ih, ← List.append_assoc, h]

/-- C7: a kWhatWorkDone delivery on an empty queue does nothing; on a
nonempty queue it removes exactly the front item, hands exactly that item
to the buffer channel, and re-posts kWhatWorkDone if and only if items
remain; consequently, over any interleaving of listener enqueues and
deliveries, work items reach the buffer channel exactly once each, in the
FIFO order in which they were enqueued. -/
theorem C7_workdone_fifo (env : Env) (now : Nat) :
    (∀ c : CCodec, c.workDoneQueue = [] →
      CCodec.onMessageReceived env now c Msg.kWhatWorkDone
        = ({ c with deadline := TimePoint.never }, []))
    ∧ (∀ (c : CCodec) (w : C2Work) (rest : List C2Work), c.workDoneQueue = w :: rest →
      CCodec.onMessageReceived env now c Msg.kWhatWorkDone
        = ({ c with workDoneQueue := rest, deadline := TimePoint.never },
           (if rest.isEmpty then [] else [Eff.post Msg.kWhatWorkDone])
             ++ [Eff.channel (ChannelCall.onWorkDone w)]))
    ∧ (∀ (evs : List WDEvent) (c : CCodec),
        (wdRun env now evs c).2 ++ (wdRun env now evs c).1.workDoneQueue
          = c.workDoneQueue ++ wdEnqueued evs) := by
  refine ⟨?_, ?_, wdRun_fifo env now⟩
  · intro c hq
    simp [CCodec.onMessageReceived, CCodec.entryCodec, CCodec.handleWorkDone,
      CCodec.setDeadline, hq]
  · intro c w rest hq
    simp [CCodec.onMessageReceived, CCodec.entryCodec, CCodec.handleWorkDone,
      CCodec.setDeadline, hq]

/-- C7 witness: an empty-queue delivery is a no-op; a delivery on queue
[wk0, wk1] hands wk0 to the channel and re-posts. -/
theorem C7_workdone_fifo_witness :
    (CCodec.onMessageReceived env0 3 cReleased Msg.kWhatWorkDone
      = ({ cReleased with deadline := TimePoint.never }, []))
    ∧ (CCodec.onMessageReceived env0 3 cQueued Msg.kWhatWorkDone
      = ({ cQueued with workDoneQueue := [wk1], deadline := TimePoint.never },
         (if ([wk1] : List C2Work).isEmpty then [] else [Eff.post Msg.kWhatWorkDone])
           ++ [Eff.channel (ChannelCall.onWorkDone wk0)])) :=
  ⟨(C7_workdone_fifo env0 3).1 cReleased rfl,
   (C7_workdone_fifo env0 3).2.1 cQueued wk0 [wk1] rfl⟩

/-- C8: on entry to each dispatcher message the deadline is set to now plus
the per-command budget (150ms allocate, 50ms configure and flush, 550ms
start and stop, 100ms create/set input surface), work-done leaving the
deadline untouched (hence no finite deadline between messages), and on exit
from every message the deadline is reset to never. -/
theorem C8_deadline_policy (env : Env) (now : Nat) (c : CCodec) (msg : Msg) :
    ((CCodec.entryCodec now c msg).deadline =
      (match msg with
        | Msg.kWhatAllocate _ => TimePoint.mk (now + 150)
        | Msg.kWhatConfigure _ => TimePoint.mk (now + 50)
        | Msg.kWhatStart => TimePoint.mk (now + 550)
        | Msg.kWhatStop => TimePoint.mk (now + 550)
        | Msg.kWhatFlush => TimePoint.mk (now + 50)
        | Msg.kWhatCreateInputSurface => TimePoint.mk (now + 100)
        | Msg.kWhatSetInputSurface => TimePoint.mk (now + 100)
        | Msg.kWhatWorkDone => c.deadline))
    ∧ (c.deadline = TimePoint.never →
        (CCodec.entryCodec now c Msg.kWhatWorkDone).deadline = TimePoint.never)
    ∧ (CCodec.onMessageReceived env now c msg).1.deadline = TimePoint.never := by
  refine ⟨?_, ?_, ?_⟩
  · cases msg <;> rfl
  · intro h; exact h
  · rfl

/-- C8 witness: a concrete start message gets deadline now+550 and exits
with deadline never; a work-done message keeps the never deadline. -/
theorem C8_deadline_policy_witness :
    ((CCodec.entryCodec 7 cReleased Msg.kWhatStart).deadline = TimePoint.mk (7 + 550))
    ∧ ((CCodec.entryCodec 7 cReleased Msg.kWhatWorkDone).deadline = TimePoint.never)
    ∧ ((CCodec.onMessageReceived env0 7 cReleased Msg.kWhatStart).1.deadline
        = TimePoint.never) :=
  ⟨(C8_deadline_policy env0 7 cReleased Msg.kWhatStart).1,
   (C8_deadline_policy env0 7 cReleased Msg.kWhatWorkDone).2.1 rfl,
   (C8_deadline_policy env0 7 cReleased Msg.kWhatStart).2.2⟩
